import Mathlib

/-!
Verification of the nctl kubeconfig reconciliation engine against its
specification.  The repository sources available are `api/client.go` (the
API client: `Token`, `Organization`, `reloginNeeded`, `loadConfigWithContext`)
and `auth/cluster_test.go` (the merge scenario test).  The core `config`
package (the merge engine, loader/saver and extension codec) is exercised by
those files but its source is not present, so those operations are modelled
from the specification, as marked on each definition.
-/

set_option autoImplicit false

namespace Nctl

/-! ## Kubeconfig document model -/

/-- A named cluster entry of a kubeconfig document: server URL, CA data and
the TLS-skip flag. -/
structure ClusterEntry where
  server : String
  certificateAuthorityData : String
  insecureSkipTLSVerify : Bool
deriving DecidableEq, Repr

/-- The exec-plugin auth block wired into a user entry: it records the OIDC
issuer URL and client ID passed as arguments to the external auth helper. -/
structure ExecAuthBlock where
  issuerURL : String
  clientID : String
deriving DecidableEq, Repr

/-- A named user entry.  The merge engine either attaches an exec-plugin auth
block or leaves the entry without one (the static-token path is a separate
code path outside the merge engine). -/
structure UserEntry where
  auth : Option ExecAuthBlock
deriving DecidableEq, Repr

/-- The opaque per-context extension blob: it records the organization the
context belongs to. -/
structure ContextExtension where
  organization : String
deriving DecidableEq, Repr

/-- A named context entry binding a cluster name to a user name, with an
optional namespace and an optional extension blob. -/
structure ContextEntry where
  cluster : String
  user : String
  nspace : Option String
  extensionBlob : Option ContextExtension
deriving DecidableEq, Repr

/-- The in-memory kubeconfig document: named clusters, users and contexts
(names unique per category, kept as association lists) and the
current-context pointer. -/
structure KubeconfigDocument where
  clusters : List (String × ClusterEntry)
  users : List (String × UserEntry)
  contexts : List (String × ContextEntry)
  currentContext : String
deriving DecidableEq, Repr

/-- The empty kubeconfig document. -/
def emptyDocument : KubeconfigDocument :=
  { clusters := [], users := [], contexts := [], currentContext := "" }

/-- Look up the entry stored under a name in an association list. -/
def lookupEntry {α : Type} (k : String) : List (String × α) → Option α
  | [] => none
  | (k', v) :: rest => if k' = k then some v else lookupEntry k rest

/-- Upsert: replace the entry of the given name wholesale when present,
append it otherwise; all other entries are untouched. -/
def upsert {α : Type} (k : String) (v : α) : List (String × α) → List (String × α)
  | [] => [(k, v)]
  | (k', v') :: rest => if k' = k then (k, v) :: rest else (k', v') :: upsert k v rest

theorem lookupEntry_upsert_self {α : Type} (k : String) (v : α) (m : List (String × α)) :
    lookupEntry k (upsert k v m) = some v := by
  induction m with
  | nil => simp [upsert, lookupEntry]
  | cons hd tl ih =>
    obtain ⟨k', v'⟩ := hd
    by_cases h : k' = k
    · simp [upsert, lookupEntry, h]
    · simp [upsert, lookupEntry, h, ih]

theorem lookupEntry_upsert_ne {α : Type} (k x : String) (v : α) (m : List (String × α))
    (hx : x ≠ k) : lookupEntry x (upsert k v m) = lookupEntry x m := by
  induction m with
  | nil => simp [upsert, lookupEntry, Ne.symm hx]
  | cons hd tl ih =>
    obtain ⟨k', v'⟩ := hd
    by_cases h : k' = k
    · subst h
      simp [upsert, lookupEntry, Ne.symm hx]
    · simp only [upsert, if_neg h]
      by_cases h' : k' = x
      · simp [lookupEntry, h']
      · simp [lookupEntry, h', ih]

theorem upsert_upsert_same {α : Type} (k : String) (v : α) (m : List (String × α)) :
    upsert k v (upsert k v m) = upsert k v m := by
  induction m with
  | nil => simp [upsert]
  | cons hd tl ih =>
    obtain ⟨k', v'⟩ := hd
    by_cases h : k' = k
    · simp [upsert, h]
    · simp [upsert, h, ih]

/-! ## Merge engine (modelled from the spec) -/

/-- The cluster descriptor handed to the merge engine: the remote cluster's
observed connection attributes.  The OIDC fields are optional; absence means
"no OIDC". -/
structure ClusterDescriptor where
  name : String
  apiEndpoint : String
  caData : String
  oidcIssuerURL : Option String
  oidcClientID : Option String
deriving DecidableEq, Repr

/-- The typed errors the merge engine surfaces. -/
inductive MergeError where
  | InvalidDescriptor
  | OIDCIncomplete
deriving DecidableEq, Repr

/-- Modelled from the spec: the context name used by the merge, the caller's
name when supplied, otherwise derived deterministically from the
descriptor's `name`. -/
def deriveContextName (desc : ClusterDescriptor) (contextName : Option String) : String :=
  contextName.getD desc.name

/-- Modelled from the spec: the user entry built by step 3 of the merge —
an exec-plugin auth block carrying the issuer URL and client ID when
`execPluginEnabled` is true and both OIDC fields are present, no auth block
otherwise. -/
def buildUserEntry (desc : ClusterDescriptor) (execPluginEnabled : Bool) : UserEntry :=
  if execPluginEnabled then
    match desc.oidcIssuerURL, desc.oidcClientID with
    | some issuer, some clientID => { auth := some { issuerURL := issuer, clientID := clientID } }
    | _, _ => { auth := none }
  else { auth := none }

/-- Modelled from the spec: the merge engine `Merge(document, descriptor,
contextName, execPluginEnabled)` of §4.2, whose source (the repository's
`config` package) is not among the available files.  It validates the
descriptor (`InvalidDescriptor` on an empty `apiEndpoint`, then
`OIDCIncomplete` when the exec plugin is enabled but exactly one OIDC field
is present), upserts the cluster, user and context entries under the derived
context name and sets the current-context. -/
def Merge (doc : KubeconfigDocument) (desc : ClusterDescriptor)
    (contextName : Option String) (execPluginEnabled : Bool) :
    Except MergeError KubeconfigDocument :=
  if desc.apiEndpoint = "" then .error .InvalidDescriptor
  else if execPluginEnabled && (desc.oidcIssuerURL.isSome != desc.oidcClientID.isSome) then
    .error .OIDCIncomplete
  else
    .ok
      { clusters := upsert (deriveContextName desc contextName)
          { server := desc.apiEndpoint
            certificateAuthorityData := desc.caData
            insecureSkipTLSVerify := false } doc.clusters
        users := upsert (deriveContextName desc contextName)
          (buildUserEntry desc execPluginEnabled) doc.users
        contexts := upsert (deriveContextName desc contextName)
          { cluster := deriveContextName desc contextName
            user := deriveContextName desc contextName
            nspace := none
            extensionBlob := none } doc.contexts
        currentContext := deriveContextName desc contextName }

/-- The successful result of a merge, made explicit: a merge that returns
`.ok` passed both validations and produced exactly the three upserts plus
the current-context assignment. -/
theorem Merge_ok_shape (doc : KubeconfigDocument) (desc : ClusterDescriptor)
    (n : Option String) (e : Bool) (doc' : KubeconfigDocument)
    (h : Merge doc desc n e = .ok doc') :
    desc.apiEndpoint ≠ "" ∧
    (e && (desc.oidcIssuerURL.isSome != desc.oidcClientID.isSome)) = false ∧
    doc' =
      { clusters := upsert (deriveContextName desc n)
          { server := desc.apiEndpoint
            certificateAuthorityData := desc.caData
            insecureSkipTLSVerify := false } doc.clusters
        users := upsert (deriveContextName desc n) (buildUserEntry desc e) doc.users
        contexts := upsert (deriveContextName desc n)
          { cluster := deriveContextName desc n
            user := deriveContextName desc n
            nspace := none
            extensionBlob := none } doc.contexts
        currentContext := deriveContextName desc n } := by
  unfold Merge at h
  split_ifs at h with h1 h2
  exact ⟨h1, by simpa using h2, by cases h; rfl⟩

/-! ## Loader/Saver (modelled from the spec) -/

/-- The state of the kubeconfig file at one path: absent, present but not
parseable as a kubeconfig document, or present and holding a document. -/
inductive FileState where
  | absent
  | malformed
  | stored (doc : KubeconfigDocument)
deriving DecidableEq, Repr

/-- The file system seen by the loader/saver, one `FileState` per path. -/
def FileSystem : Type := String → FileState

/-- The typed error the loader surfaces on a corrupt on-disk file. -/
inductive LoadError where
  | MalformedConfig
deriving DecidableEq, Repr

/-- Modelled from the spec: `Save(path, document)` of §4.3 (the repository's
`config` package saver is not among the available files) — it writes the
full document to the path, leaving every other path untouched. -/
def Save (fs : FileSystem) (path : String) (doc : KubeconfigDocument) : FileSystem :=
  fun p => if p = path then .stored doc else fs p

/-- Modelled from the spec: `Load(path)` of §4.3 (the repository's `config`
package loader is not among the available files) — an empty document when
the file does not exist, `MalformedConfig` when it exists but cannot be
parsed, the stored document otherwise. -/
def Load (fs : FileSystem) (path : String) : Except LoadError KubeconfigDocument :=
  match fs path with
  | .absent => .ok emptyDocument
  | .malformed => .error .MalformedConfig
  | .stored doc => .ok doc

/-! ## Extension codec (modelled from the spec) and its caller from
`api/client.go` -/

/-- The typed errors of the extension codec. -/
inductive ConfigError where
  | ExtensionNotFound
  | MalformedConfig
deriving DecidableEq, Repr

/-- Modelled from the spec: `ReadExtension(path, contextName)` of §4.4 (the
repository's `config` package is not among the available files) — it loads
the document and looks up the named context's extension; `ExtensionNotFound`
when the context is missing or carries no extension, `MalformedConfig` when
the document cannot be loaded. -/
def ReadExtension (fs : FileSystem) (path contextName : String) :
    Except ConfigError ContextExtension :=
  match Load fs path with
  | .error _ => .error .MalformedConfig
  | .ok doc =>
    match lookupEntry contextName doc.contexts with
    | none => .error .ExtensionNotFound
    | some entry =>
      match entry.extensionBlob with
      | none => .error .ExtensionNotFound
      | some ext => .ok ext

/-- Modelled from the spec: `config.IsExtensionNotFoundError`, the predicate
`Client.Organization` uses to recognise the extension-not-found error
class. -/
def IsExtensionNotFoundError : ConfigError → Bool
  | .ExtensionNotFound => true
  | .MalformedConfig => false

/-- The error returned by `Client.Organization` in `api/client.go`: either a
config error wrapped by `reloginNeeded` (the `%w`-wrap that appends the
re-login message) or a config error propagated unchanged. -/
inductive OrganizationError where
  | reloginNeeded (err : ConfigError)
  | unchanged (err : ConfigError)
deriving DecidableEq, Repr

/-- `Client.Organization` from `api/client.go`: reads the extension of the
client's kubeconfig context; an extension-not-found error is wrapped into a
re-login error, every other error is returned unchanged, and on success the
extension's organization is returned. -/
def Organization (fs : FileSystem) (kubeconfigPath kubeconfigContext : String) :
    Except OrganizationError String :=
  match ReadExtension fs kubeconfigPath kubeconfigContext with
  | .error err =>
    if IsExtensionNotFoundError err then .error (.reloginNeeded err)
    else .error (.unchanged err)
  | .ok cfg => .ok cfg.organization

/-! ## `loadConfigWithContext` and `Token` from `api/client.go` -/

/-- The fields of the `rest.Config` relevant to `loadConfigWithContext`. -/
structure RestConfig where
  host : String
  qps : Int
  burst : Int
deriving DecidableEq, Repr

/-- The outcome of the external calls made by `loadConfigWithContext`: the
result of `clientConfig.Namespace()` and of `clientConfig.ClientConfig()`.
A Go call returning `(value, error)` is a pointer that may be nil paired
with an error that may be nil. -/
structure ClientConfigOutcome where
  namespaceResult : Except String String
  clientConfigValue : Option RestConfig
  clientConfigError : Option String
deriving Repr

/-- `loadConfigWithContext` from `api/client.go`, parametrised by the
outcome of the external clientcmd calls.  It returns the namespace error
early; otherwise it assigns `cfg.QPS = 25` and `cfg.Burst = 50` on the
config returned by `ClientConfig()` before the error of that call is
checked, and returns config, namespace and that error.  The outer `none`
models the nil-pointer panic of the `cfg.QPS` assignment when
`ClientConfig()` returned a nil config. -/
def loadConfigWithContext (outcome : ClientConfigOutcome) :
    Option (Option RestConfig × String × Option String) :=
  match outcome.namespaceResult with
  | .error e => some (none, "", some e)
  | .ok ns =>
    match outcome.clientConfigValue with
    | none => none
    | some cfg =>
      some (some { cfg with qps := 25, burst := 50 }, ns, outcome.clientConfigError)

/-- `Client.Token` from `api/client.go`, parametrised by the behaviour of
`GetTokenFromConfig` (whose source is not among the available files): the
empty string when the client's config is nil or the token retrieval fails,
the retrieved token otherwise. -/
def Token (config : Option RestConfig) (getTokenFromConfig : RestConfig → Except String String) :
    String :=
  match config with
  | none => ""
  | some cfg =>
    match getTokenFromConfig cfg with
    | .error _ => ""
    | .ok token => token

/-! ## Concrete documents and descriptors, from `auth/cluster_test.go` -/

/-- The cluster entry of the pre-existing context in the kubeconfig of
`TestClusterCmd`. -/
def existingClusterEntry : ClusterEntry :=
  { server := "https://existing.example.org"
    certificateAuthorityData := ""
    insecureSkipTLSVerify := false }

/-- The context entry of the pre-existing context (its body is empty in the
test fixture). -/
def existingContextEntry : ContextEntry :=
  { cluster := "", user := "", nspace := none, extensionBlob := none }

/-- The kubeconfig document of `existingKubeconfig` in
`auth/cluster_test.go`: one cluster, user and context named `existing`, with
`existing` as the current context. -/
def existingDoc : KubeconfigDocument :=
  { clusters := [("existing", existingClusterEntry)]
    users := [("existing", { auth := none })]
    contexts := [("existing", existingContextEntry)]
    currentContext := "existing" }

/-- The descriptor of the cluster built by `newCluster` in
`auth/cluster_test.go`: endpoint `https://new.example.org`, OIDC issuer
`https://auth.example.org` and client ID `some-client-id`. -/
def testDescriptor : ClusterDescriptor :=
  { name := "test"
    apiEndpoint := "https://new.example.org"
    caData := ""
    oidcIssuerURL := some "https://auth.example.org"
    oidcClientID := some "some-client-id" }

/-- The cluster entry the merge writes for `testDescriptor`. -/
def newClusterEntry : ClusterEntry :=
  { server := "https://new.example.org"
    certificateAuthorityData := ""
    insecureSkipTLSVerify := false }

/-- The context entry the merge writes under the name `test`. -/
def testContextEntry : ContextEntry :=
  { cluster := "test", user := "test", nspace := none, extensionBlob := none }

/-- The result of merging `testDescriptor` into `existingDoc` under context
name `test` with the exec plugin disabled. -/
def mergedNoExecDoc : KubeconfigDocument :=
  { clusters := [("existing", existingClusterEntry), ("test", newClusterEntry)]
    users := [("existing", { auth := none }), ("test", { auth := none })]
    contexts := [("existing", existingContextEntry), ("test", testContextEntry)]
    currentContext := "test" }

/-- The result of merging `testDescriptor` into the empty document under
context name `test` with the exec plugin enabled. -/
def mergedExecDoc : KubeconfigDocument :=
  { clusters := [("test", newClusterEntry)]
    users := [("test", { auth := some { issuerURL := "https://auth.example.org",
                                        clientID := "some-client-id" } })]
    contexts := [("test", testContextEntry)]
    currentContext := "test" }

/-! ## Claims -/

/-- Claim C1: Merge is idempotent — when `Merge D C N` succeeds with result
`D₁`, merging again with identical inputs returns the very same value, so in
particular the target context's cluster entry, user entry, context entry and
the current-context of the second result are identical to those of the
first. -/
theorem Merge_idempotent (doc : KubeconfigDocument) (desc : ClusterDescriptor)
    (n : Option String) (e : Bool) (doc₁ : KubeconfigDocument)
    (h : Merge doc desc n e = .ok doc₁) :
    Merge doc₁ desc n e = Merge doc desc n e := by
  obtain ⟨h1, h2, h3⟩ := Merge_ok_shape doc desc n e doc₁ h
  rw [h]
  subst h3
  unfold Merge
  rw [if_neg h1, if_neg (by simp [h2])]
  simp [upsert_upsert_same]

/-- Witness for C1: the scenario merge of the test suite, applied twice. -/
theorem Merge_idempotent_witness :
    Merge mergedNoExecDoc testDescriptor (some "test") false =
      Merge existingDoc testDescriptor (some "test") false :=
  Merge_idempotent existingDoc testDescriptor (some "test") false mergedNoExecDoc rfl

/-- Claim C2: Merge does not interfere with unrelated entries — an entry
name different from the derived target context name is looked up unchanged
in the clusters, users and contexts of the merged document. -/
theorem Merge_noninterference (doc : KubeconfigDocument) (desc : ClusterDescriptor)
    (n : Option String) (e : Bool) (x : String) (doc' : KubeconfigDocument)
    (hx : x ≠ deriveContextName desc n) (h : Merge doc desc n e = .ok doc') :
    lookupEntry x doc'.clusters = lookupEntry x doc.clusters ∧
    lookupEntry x doc'.users = lookupEntry x doc.users ∧
    lookupEntry x doc'.contexts = lookupEntry x doc.contexts := by
  obtain ⟨-, -, h3⟩ := Merge_ok_shape doc desc n e doc' h
  subst h3
  exact ⟨lookupEntry_upsert_ne _ _ _ _ hx, lookupEntry_upsert_ne _ _ _ _ hx,
    lookupEntry_upsert_ne _ _ _ _ hx⟩

/-- Witness for C2: the `existing` entries survive the scenario merge. -/
theorem Merge_noninterference_witness :
    lookupEntry "existing" mergedNoExecDoc.clusters = lookupEntry "existing" existingDoc.clusters ∧
    lookupEntry "existing" mergedNoExecDoc.users = lookupEntry "existing" existingDoc.users ∧
    lookupEntry "existing" mergedNoExecDoc.contexts = lookupEntry "existing" existingDoc.contexts :=
  Merge_noninterference existingDoc testDescriptor (some "test") false "existing"
    mergedNoExecDoc (by decide) rfl

/-- Claim C3: the concrete scenario of `TestClusterCmd` — merging the test
descriptor into the document with the single `existing` context, under
context name `test` with the exec plugin disabled, yields exactly the two
contexts `existing` and `test`, current-context `test`, and the `existing`
cluster's server still `https://existing.example.org`. -/
theorem Merge_scenario :
    Merge existingDoc testDescriptor (some "test") false = .ok mergedNoExecDoc ∧
    mergedNoExecDoc.contexts.map Prod.fst = ["existing", "test"] ∧
    mergedNoExecDoc.contexts.length = 2 ∧
    mergedNoExecDoc.currentContext = "test" ∧
    (lookupEntry "existing" mergedNoExecDoc.clusters).map ClusterEntry.server =
      some "https://existing.example.org" :=
  ⟨rfl, rfl, rfl, rfl, rfl⟩

/-- Claim C4: OIDC gating — with the exec plugin enabled and both OIDC
fields present the merged user entry carries an auth block with exactly that
issuer URL and client ID; with the exec plugin disabled the merged user
entry carries no auth block, whatever the descriptor's OIDC fields. -/
theorem Merge_oidc_gating :
    (∀ (doc : KubeconfigDocument) (desc : ClusterDescriptor) (n : Option String)
       (doc' : KubeconfigDocument) (issuer clientID : String),
       desc.oidcIssuerURL = some issuer → desc.oidcClientID = some clientID →
       Merge doc desc n true = .ok doc' →
       lookupEntry (deriveContextName desc n) doc'.users =
         some { auth := some { issuerURL := issuer, clientID := clientID } }) ∧
    (∀ (doc : KubeconfigDocument) (desc : ClusterDescriptor) (n : Option String)
       (doc' : KubeconfigDocument),
       Merge doc desc n false = .ok doc' →
       lookupEntry (deriveContextName desc n) doc'.users = some { auth := none }) := by
  constructor
  · intro doc desc n doc' issuer clientID hi hc h
    obtain ⟨-, -, h3⟩ := Merge_ok_shape doc desc n true doc' h
    subst h3
    simp [lookupEntry_upsert_self, buildUserEntry, hi, hc]
  · intro doc desc n doc' h
    obtain ⟨-, -, h3⟩ := Merge_ok_shape doc desc n false doc' h
    subst h3
    simp [lookupEntry_upsert_self, buildUserEntry]

/-- Witness for C4: the two gating outcomes at the test descriptor. -/
theorem Merge_oidc_gating_witness :
    lookupEntry "test" mergedExecDoc.users =
      some { auth := some { issuerURL := "https://auth.example.org",
                            clientID := "some-client-id" } } ∧
    lookupEntry "test" mergedNoExecDoc.users = some { auth := none } :=
  ⟨Merge_oidc_gating.1 emptyDocument testDescriptor (some "test") mergedExecDoc
      "https://auth.example.org" "some-client-id" rfl rfl rfl,
   Merge_oidc_gating.2 existingDoc testDescriptor (some "test") mergedNoExecDoc rfl⟩

/-- Claim C5: Merge's error conditions — an empty `apiEndpoint` yields
`InvalidDescriptor`; a non-empty endpoint with the exec plugin enabled but
exactly one OIDC field present yields `OIDCIncomplete`, so no document and
in particular no auth block is produced from the partial configuration. -/
theorem Merge_error_conditions :
    (∀ (doc : KubeconfigDocument) (desc : ClusterDescriptor) (n : Option String) (e : Bool),
       desc.apiEndpoint = "" → Merge doc desc n e = .error .InvalidDescriptor) ∧
    (∀ (doc : KubeconfigDocument) (desc : ClusterDescriptor) (n : Option String),
       desc.apiEndpoint ≠ "" →
       desc.oidcIssuerURL.isSome ≠ desc.oidcClientID.isSome →
       Merge doc desc n true = .error .OIDCIncomplete) := by
  constructor
  · intro doc desc n e h
    unfold Merge
    rw [if_pos h]
  · intro doc desc n h1 h2
    have hb : (desc.oidcIssuerURL.isSome != desc.oidcClientID.isSome) = true := by
      simpa [bne_iff_ne] using h2
    unfold Merge
    rw [if_neg h1]
    simp [hb]

/-- Witness for C5: an empty-endpoint descriptor and a half-OIDC
descriptor. -/
theorem Merge_error_conditions_witness :
    Merge emptyDocument
      { name := "x", apiEndpoint := "", caData := "",
        oidcIssuerURL := none, oidcClientID := none } none false =
      .error .InvalidDescriptor ∧
    Merge emptyDocument
      { name := "x", apiEndpoint := "https://api.example.org", caData := "",
        oidcIssuerURL := some "https://auth.example.org", oidcClientID := none } none true =
      .error .OIDCIncomplete :=
  ⟨Merge_error_conditions.1 emptyDocument
      { name := "x", apiEndpoint := "", caData := "",
        oidcIssuerURL := none, oidcClientID := none } none false rfl,
   Merge_error_conditions.2 emptyDocument
      { name := "x", apiEndpoint := "https://api.example.org", caData := "",
        oidcIssuerURL := some "https://auth.example.org", oidcClientID := none } none
      (by decide) (by decide)⟩

/-- Claim C6: Load/Save round-trip — after saving a document at a path,
loading that path reconstructs the document. -/
theorem Load_Save_roundtrip (fs : FileSystem) (path : String) (doc : KubeconfigDocument) :
    Load (Save fs path doc) path = .ok doc := by
  simp [Load, Save]

/-- Claim C7: missing-file tolerance — loading a path with no file returns
the empty document and no error; loading an existing but unparseable file
fails with `MalformedConfig`. -/
theorem Load_missing_tolerance (fs : FileSystem) (path : String) :
    (fs path = .absent → Load fs path = .ok emptyDocument) ∧
    (fs path = .malformed → Load fs path = .error .MalformedConfig) := by
  constructor <;> intro h <;> simp [Load, h]

/-- Witness for C7: a file system with no files, and one whose every file is
unparseable. -/
theorem Load_missing_tolerance_witness :
    Load (fun _ => FileState.absent) "kubeconfig" = .ok emptyDocument ∧
    Load (fun _ => FileState.malformed) "kubeconfig" = .error .MalformedConfig :=
  ⟨(Load_missing_tolerance (fun _ => FileState.absent) "kubeconfig").1 rfl,
   (Load_missing_tolerance (fun _ => FileState.malformed) "kubeconfig").2 rfl⟩

/-- A stored document whose context `ctx` carries no extension blob, for the
extension-absence witnesses. -/
def noExtensionDoc : KubeconfigDocument :=
  { clusters := [("ctx", existingClusterEntry)]
    users := [("ctx", { auth := none })]
    contexts := [("ctx", { cluster := "ctx", user := "ctx", nspace := none,
                           extensionBlob := none })]
    currentContext := "ctx" }

/-- Claim C8: extension absence — `ReadExtension` fails with
`ExtensionNotFound` both when the named context is missing and when it
exists without an extension (so no zero-value organization string is
returned), and `Client.Organization` wraps exactly this error class into a
re-login error while propagating every other error unchanged. -/
theorem ReadExtension_absent_relogin :
    (∀ (fs : FileSystem) (path ctx : String) (doc : KubeconfigDocument),
       Load fs path = .ok doc → lookupEntry ctx doc.contexts = none →
       ReadExtension fs path ctx = .error .ExtensionNotFound) ∧
    (∀ (fs : FileSystem) (path ctx : String) (doc : KubeconfigDocument)
       (entry : ContextEntry),
       Load fs path = .ok doc → lookupEntry ctx doc.contexts = some entry →
       entry.extensionBlob = none →
       ReadExtension fs path ctx = .error .ExtensionNotFound) ∧
    (∀ (fs : FileSystem) (path ctx : String),
       ReadExtension fs path ctx = .error .ExtensionNotFound →
       Organization fs path ctx = .error (.reloginNeeded .ExtensionNotFound)) ∧
    (∀ (fs : FileSystem) (path ctx : String) (err : ConfigError),
       ReadExtension fs path ctx = .error err → IsExtensionNotFoundError err = false →
       Organization fs path ctx = .error (.unchanged err)) := by
  refine ⟨?_, ?_, ?_, ?_⟩
  · intro fs path ctx doc hload hnone
    simp [ReadExtension, hload, hnone]
  · intro fs path ctx doc entry hload hsome hext
    simp [ReadExtension, hload, hsome, hext]
  · intro fs path ctx h
    simp [Organization, h, IsExtensionNotFoundError]
  · intro fs path ctx err h hflag
    simp [Organization, h, hflag]

/-- Witness for C8: a context without extension, a missing context, and a
malformed file propagated unchanged. -/
theorem ReadExtension_absent_relogin_witness :
    ReadExtension (fun _ => FileState.stored noExtensionDoc) "p" "ctx" =
      .error .ExtensionNotFound ∧
    ReadExtension (fun _ => FileState.stored noExtensionDoc) "p" "ghost" =
      .error .ExtensionNotFound ∧
    Organization (fun _ => FileState.stored noExtensionDoc) "p" "ctx" =
      .error (.reloginNeeded .ExtensionNotFound) ∧
    Organization (fun _ => FileState.malformed) "p" "ctx" =
      .error (.unchanged .MalformedConfig) :=
  ⟨ReadExtension_absent_relogin.2.1 (fun _ => FileState.stored noExtensionDoc) "p" "ctx"
      noExtensionDoc { cluster := "ctx", user := "ctx", nspace := none, extensionBlob := none }
      rfl rfl rfl,
   ReadExtension_absent_relogin.1 (fun _ => FileState.stored noExtensionDoc) "p" "ghost"
      noExtensionDoc rfl rfl,
   ReadExtension_absent_relogin.2.2.1 (fun _ => FileState.stored noExtensionDoc) "p" "ctx"
      (ReadExtension_absent_relogin.2.1 (fun _ => FileState.stored noExtensionDoc) "p" "ctx"
        noExtensionDoc { cluster := "ctx", user := "ctx", nspace := none, extensionBlob := none }
        rfl rfl rfl),
   ReadExtension_absent_relogin.2.2.2 (fun _ => FileState.malformed) "p" "ctx"
      .MalformedConfig rfl rfl⟩

/-- Claim C9 fails on the code: `loadConfigWithContext` assigns
`cfg.QPS = 25` before the error of `clientConfig.ClientConfig()` is checked,
so at an outcome where `Namespace()` succeeds but `ClientConfig()` returns a
nil config together with an error (clientcmd permits this, e.g. when the
in-cluster fallback fails to read the service-account token), the
dereference panics — modelled by the `none` result. -/
theorem loadConfigWithContext_nil_deref :
    loadConfigWithContext
      { namespaceResult := .ok "default"
        clientConfigValue := none
        clientConfigError := some "no configuration has been provided" } = none := rfl

/-- Claim C10: `Client.Token` is total — it returns the empty string when
the client's config is nil or when `GetTokenFromConfig` fails, and the
retrieved token otherwise; being a function into `String` it never signals
failure. -/
theorem Token_total (config : Option RestConfig)
    (getTokenFromConfig : RestConfig → Except String String) :
    (config = none → Token config getTokenFromConfig = "") ∧
    (∀ cfg : RestConfig, config = some cfg →
      (∀ e : String, getTokenFromConfig cfg = .error e →
        Token config getTokenFromConfig = "") ∧
      (∀ t : String, getTokenFromConfig cfg = .ok t →
        Token config getTokenFromConfig = t)) := by
  refine ⟨?_, ?_⟩
  · intro h
    subst h
    rfl
  · intro cfg hc
    subst hc
    constructor
    · intro e he
      simp [Token, he]
    · intro t ht
      simp [Token, ht]

/-- Witness for C10: the three branches of `Token` at a concrete config. -/
theorem Token_total_witness :
    Token none (fun _ => .ok "tok") = "" ∧
    Token (some { host := "h", qps := 0, burst := 0 }) (fun _ => .error "boom") = "" ∧
    Token (some { host := "h", qps := 0, burst := 0 }) (fun _ => .ok "tok") = "tok" :=
  ⟨(Token_total none (fun _ => .ok "tok")).1 rfl,
   ((Token_total (some { host := "h", qps := 0, burst := 0 }) (fun _ => .error "boom")).2
      { host := "h", qps := 0, burst := 0 } rfl).1 "boom" rfl,
   ((Token_total (some { host := "h", qps := 0, burst := 0 }) (fun _ => .ok "tok")).2
      { host := "h", qps := 0, burst := 0 } rfl).2 "tok" rfl⟩

end Nctl
